import Mathlib

/-!
Verification of the claude-autopilot task scheduler core.

This file shallow-embeds the Go source of the scheduler: the task state
machine (internal/queue/task.go), the runner's state mutations
(internal/runner/runner.go), the rate-limit detector (package detector),
the reset-time resolution (internal/timeparse/timeparse.go), the queue
store's defaulting/de-duplication/sorting (package queue), and the CLI
adapter's argument builder (package compat).

Modelling conventions:
* Go `string` statuses become the inductive `Status` (the six constants of
  task.go); Go `int` becomes `Int`; `time.Time` instants become `Int`
  (for the time parser: `Nat` minutes since an epoch); `*time.Time`
  becomes `Option Int`.
* Real-time, filesystem and subprocess effects are factored out: each
  state mutation of the runner is embedded as a pure function from the
  loaded `TaskState` (plus the values the code reads from the clock or
  the child process) to the saved `TaskState`.
* The detector's reset-time extraction (a regex plus the time parser,
  which reads the wall clock) is passed as an opaque function; the
  classification layering never depends on its output.
-/

namespace Autopilot

/-- Task status values, from the six constants of internal/queue/task.go. -/
inductive Status where
  | pending
  | running
  | waiting
  | done
  | failed
  | cancelled
deriving DecidableEq, Repr

/-- The allowed state-machine transitions: `validTransitions` of
internal/queue/task.go, with `ValidTransition` inlined (absent keys and
absent targets are `false`). -/
def ValidTransition : Status → Status → Bool
  | .pending,   .running   => true
  | .pending,   .cancelled => true
  | .running,   .done      => true
  | .running,   .failed    => true
  | .running,   .waiting   => true
  | .running,   .cancelled => true
  | .waiting,   .running   => true
  | .waiting,   .cancelled => true
  | .failed,    .pending   => true
  | .failed,    .cancelled => true
  | .cancelled, .pending   => true
  | _,          _          => false

/-- `TaskState` of internal/queue/task.go. Timestamps are abstract `Int`
instants; `*time.Time` fields are `Option Int`. -/
structure TaskState where
  id : String
  status : Status
  attempt : Int := 0
  startedAt : Option Int := none
  endedAt : Option Int := none
  lastRateLimitedAt : Option Int := none
  resumeAt : Option Int := none
  promptHash : String := ""
  gitCommit : String := ""
  sessionID : String := ""
  lastNDJSONMessages : List String := []
deriving DecidableEq, Repr

/-- `Task` of internal/queue/task.go (`Source` is the provenance string the
loader attaches; `CreatedAt` is an abstract instant). -/
structure Task where
  id : String := ""
  title : String := ""
  priority : Int := 0
  createdAt : Int := 0
  workingDir : String := ""
  skipPermissions : Bool := false
  prompt : String := ""
  contextFiles : List String := []
  model : String := ""
  maxRetries : Int := 0
  estimatedTokens : Int := 0
  flags : List String := []
  source : String := ""
deriving DecidableEq, Repr

/-- One iteration of the command switch in `Runner.processControlCommands`
(runner.go): `retry` is applied only from failed/cancelled and only when
the transition table admits it; `cancel` is applied only when the table
admits it; unknown ops are dropped. -/
def applyCommand (op : String) (st : TaskState) : TaskState :=
  if op = "retry" then
    if (st.status = Status.failed ∨ st.status = Status.cancelled) then
      if ValidTransition st.status Status.pending = true then
        { st with status := Status.pending, attempt := 0, resumeAt := none }
      else st
    else st
  else if op = "cancel" then
    if ValidTransition st.status Status.cancelled = true then
      { st with status := Status.cancelled }
    else st
  else st

/-- Crash recovery in `Runner.Run` (runner.go, main loop step 6): a loaded
state whose status is `running` is a stale record from a dead process and
is reset to `pending` unconditionally. -/
def crashRecover (st : TaskState) : TaskState :=
  if st.status = Status.running then { st with status := Status.pending } else st

/-- The working-directory validation failure path at the top of
`Runner.executeTask` (runner.go): the status is set straight to `failed`
and `ended_at` stamped, with no transition-table check. -/
def preRunDirFail (now : Int) (st : TaskState) : TaskState :=
  { st with status := Status.failed, endedAt := some now }

/-- The pre-run mutation of `Runner.executeTask` (runner.go): status to
`running`, attempt incremented, `started_at` stamped, prompt hash and git
commit recorded. -/
def preRunStart (now : Int) (promptHash gitCommit : String) (st : TaskState) : TaskState :=
  { st with status := Status.running, attempt := st.attempt + 1,
            startedAt := some now, endedAt := none,
            promptHash := promptHash, gitCommit := gitCommit }

/-- `DetectionResult` of the detector package. -/
inductive DetectionResult where
  | Unknown
  | Completed
  | RateLimited
  | Failed
deriving DecidableEq, Repr

/-- `RateLimitResult` of the detector package. -/
structure RateLimitResult where
  result : DetectionResult
  resetTime : Option Int := none
  reason : String := ""
deriving DecidableEq, Repr

/-- The outcome switch of `Runner.executeTask` (runner.go, transition on
the detection result). `backoffOf` stands for `exponentialBackoff`
evaluated by the runner at the task's attempt count, and `now` for the
wall clock read in each branch. -/
def handleOutcome (det : RateLimitResult) (maxRetries : Int) (backoffOf : Int → Int)
    (now : Int) (st : TaskState) : TaskState :=
  match det.result with
  | .Completed => { st with status := Status.done }
  | .RateLimited =>
      let st := { st with status := Status.waiting, lastRateLimitedAt := some now }
      match det.resetTime with
      | some t => { st with resumeAt := some t }
      | none   => { st with resumeAt := some (now + backoffOf st.attempt) }
  | .Failed =>
      if st.attempt < maxRetries then
        { st with status := Status.waiting, resumeAt := some (now + backoffOf st.attempt) }
      else
        { st with status := Status.failed }
  | .Unknown =>
      if st.attempt < 2 then
        { st with status := Status.waiting, resumeAt := some (now + backoffOf st.attempt) }
      else
        { st with status := Status.failed }

/-- The tail of `Runner.executeTask` after the child exits (runner.go):
store the output tail; if the shutdown flag is set, restore a running task
to `pending` and un-count the interrupted attempt; otherwise apply the
outcome switch and stamp `ended_at`. -/
def finishExecution (shuttingDown : Bool) (det : RateLimitResult) (maxRetries : Int)
    (backoffOf : Int → Int) (now : Int) (lastLines : List String)
    (st : TaskState) : TaskState :=
  let st := { st with lastNDJSONMessages := lastLines }
  if shuttingDown then
    if st.status = Status.running then
      { st with status := Status.pending, attempt := st.attempt - 1, endedAt := none }
    else st
  else
    let st := handleOutcome det maxRetries backoffOf now st
    { st with endedAt := some now }

/-- The direct-mutation path of `runRetry` (cmd package), after the state
is loaded: only failed/cancelled may be retried; the retry resets status
to pending, attempt to 0, and clears resume_at. -/
def runRetryDirect (st : TaskState) : Except String TaskState :=
  if st.status ≠ Status.failed ∧ st.status ≠ Status.cancelled then
    Except.error "only failed/cancelled tasks can be retried"
  else
    Except.ok { st with status := Status.pending, attempt := 0, resumeAt := none }

/-- Case-insensitive substring containment:
`strings.Contains(strings.ToLower(text), strings.ToLower(p))`. -/
def containsCI (text pat : String) : Bool :=
  decide ((pat.data.map Char.toLower) <:+: (text.data.map Char.toLower))

/-- `Detector.matchPatterns`: first configured pattern that matches the
text case-insensitively, if any. -/
def matchPatterns (patterns : List String) (text : String) : Option String :=
  patterns.find? (fun p => containsCI text p)

/-- The `Detector` struct of the detector package (the compiled reset-time
regex is not part of the classification state). -/
structure Detector where
  patterns : List String
  rateLimitExitCode : Int
deriving Repr

/-- `Detector.Detect`: layered classification of a child exit.
`extractResetTime` stands for `Detector.extractResetTime` (regex capture
fed to the time parser, which reads the wall clock); it only fills the
`resetTime` field and never influences the classification. -/
def Detect (d : Detector) (extractResetTime : String → Option Int)
    (exitCode : Int) (stdout stderr : String) : RateLimitResult :=
  if exitCode = 0 then
    { result := DetectionResult.Completed, resetTime := none, reason := "exit code 0" }
  else if 0 ≤ d.rateLimitExitCode ∧ exitCode = d.rateLimitExitCode then
    { result := DetectionResult.RateLimited,
      resetTime := extractResetTime (stderr ++ " " ++ stdout),
      reason := "exit code matches rate limit code" }
  else
    match matchPatterns d.patterns stderr with
    | some p =>
        { result := DetectionResult.RateLimited,
          resetTime := extractResetTime (stderr ++ " " ++ stdout),
          reason := "stderr matched pattern: " ++ p }
    | none =>
        match matchPatterns d.patterns stdout with
        | some p =>
            { result := DetectionResult.RateLimited,
              resetTime := extractResetTime stdout,
              reason := "stdout matched pattern: " ++ p }
        | none =>
            { result := DetectionResult.Failed, resetTime := none,
              reason := "non-zero exit code with no rate limit indicators" }

/-- The pre-jitter value of `exponentialBackoff` (runner.go): the
`minutes` local after `baseMinutes * math.Pow(2, attempt-1)` and the
300-minute cap, just before the jitter is applied. -/
def preJitterMinutes (attempt : Int) : ℚ :=
  let minutes := (5 : ℚ) * (2 : ℚ) ^ (attempt - 1)
  if minutes > 300 then 300 else minutes

/-- `exponentialBackoff` of runner.go over exact rationals: base 5 min,
doubling per attempt, capped at 300 min (`preJitterMinutes`), ±20 %
jitter, clamped below at 1 min. `u` stands for the `rand.Float64()`
draw. The result is in minutes. -/
def exponentialBackoff (attempt : Int) (u : ℚ) : ℚ :=
  let jitterPct : ℚ := 1/5
  let minutes := preJitterMinutes attempt
  let jitter := minutes * jitterPct * (2 * u - 1)
  let minutes := minutes + jitter
  if minutes < 1 then 1 else minutes

/-- The candidate-resolution tail of `ParseResetTime`
(internal/timeparse/timeparse.go, the lines from `now :=` to the return):
instants are minutes since an epoch in the resolved location, so the
day of `now` starts at `(now / 1440) * 1440`. When the string carried an
explicit month+day date the candidate is that date's instant
(`dateCandidate`); otherwise it is today at `hour:minute`. A past
candidate errors when dated, and is rolled forward 24 h when time-only. -/
def parseResetTimeCore (hasDate : Bool) (dateCandidate hour minute now : Nat) :
    Except String Nat :=
  let result := if hasDate then dateCandidate
                else (now / 1440) * 1440 + (60 * hour + minute)
  if result < now then
    if hasDate then
      Except.error "reset time is in the past"
    else
      Except.ok (result + 1440)
  else
    Except.ok result

/-- The duplicate-ID scan of `LoadTasksAndInit` (queue package): walk the
loaded tasks, remembering each ID's provenance; report the first ID seen
twice together with both provenance strings. -/
def dedupCheck : List (String × String) → List Task → Option (String × String × String)
  | _, [] => none
  | seen, t :: rest =>
      match seen.lookup t.id with
      | some prev => some (t.id, prev, t.source)
      | none => dedupCheck ((t.id, t.source) :: seen) rest

/-- The duplicate error text of `LoadTasksAndInit`. -/
def duplicateErrorMessage (id a b : String) : String :=
  "Duplicate task ID '" ++ id ++ "' found in " ++ a ++ " and " ++ b ++ ". Remove one."

/-- The comparator of `LoadTasksAndInit`'s `sort.Slice` call:
priority ascending, then created_at ascending, then id ascending. -/
def taskLess (a b : Task) : Bool :=
  if a.priority ≠ b.priority then decide (a.priority < b.priority)
  else if a.createdAt ≠ b.createdAt then decide (a.createdAt < b.createdAt)
  else decide (a.id < b.id)

/-- Non-strict version of the comparator: `a` need not come after `b`.
`sort.Slice` sorts so that consecutive elements satisfy this. -/
def taskLE (a b : Task) : Prop := taskLess b a = false

instance : DecidableRel taskLE := fun _ _ => instDecidableEqBool _ _

/-- The strict comparator as a relation. -/
def taskLT (a b : Task) : Prop := taskLess a b = true

instance : DecidableRel taskLT := fun _ _ => instDecidableEqBool _ _

/-- The sort step of `LoadTasksAndInit`. Go's `sort.Slice` is an
unspecified (unstable) comparison sort; any such sort produces a
permutation of its input that is sorted under the comparator, which is
what this models. -/
def sortTasks (l : List Task) : List Task := List.insertionSort taskLE l

/-- The sort key: the three fields the comparator reads, lexicographically
ordered. -/
def taskKey (t : Task) : Int ×ₗ Int ×ₗ String :=
  toLex (t.priority, toLex (t.createdAt, t.id))

/-- The in-memory pipeline of `LoadTasksAndInit` (queue package) after the
YAML sources have been parsed, defaulted and validated into task records:
fail on the first duplicate ID across all sources, otherwise sort by
(priority, created_at, id). -/
def loadTasksAndInit (tasks : List Task) : Except String (List Task) :=
  match dedupCheck [] tasks with
  | some (id, a, b) => Except.error (duplicateErrorMessage id a b)
  | none => Except.ok (sortTasks tasks)

/-- `knownAdapter.BuildArgs` (compat package), parameterized by the two
capability bits of its `CompatEntry`. -/
def knownAdapterBuildArgs (streamJSON resumeFlag : Bool)
    (prompt model sessionID : String) (skipPerms : Bool)
    (extraFlags : List String) : List String :=
  ["--print"]
  ++ (if streamJSON = true then ["--verbose", "--output-format", "stream-json"] else [])
  ++ (if resumeFlag = true ∧ sessionID ≠ "" then ["--resume", sessionID] else [])
  ++ (if model ≠ "" then ["--model", model] else [])
  ++ (if skipPerms = true then ["--dangerously-skip-permissions"] else [])
  ++ extraFlags
  ++ ["--", prompt]

/-- `safeAdapter.BuildArgs` (compat package): the unknown-version builder,
which always emits the stream-json flags and honors any session ID. -/
def safeAdapterBuildArgs (prompt model sessionID : String) (skipPerms : Bool)
    (extraFlags : List String) : List String :=
  ["--print", "--verbose", "--output-format", "stream-json"]
  ++ (if sessionID ≠ "" then ["--resume", sessionID] else [])
  ++ (if model ≠ "" then ["--model", model] else [])
  ++ (if skipPerms = true then ["--dangerously-skip-permissions"] else [])
  ++ extraFlags
  ++ ["--", prompt]

/-- The priority-defaulting statement of `applyDefaults` (queue package):
`if t.Priority == 0 { t.Priority = 10 }`. -/
def defaultPriority (t : Task) : Task :=
  if t.priority = 0 then { t with priority := 10 } else t

/-- The max-retries-defaulting statement of `applyDefaults`:
`if t.MaxRetries == 0 { t.MaxRetries = 5 }`. -/
def defaultMaxRetries (t : Task) : Task :=
  if t.maxRetries = 0 then { t with maxRetries := 5 } else t

/-- `applyDefaults` of the queue package. The pure string helpers
`truncate` (first-60-characters title derivation) and `GenerateID`
(slug plus random 4-hex suffix) are passed in as `trunc` and `genID`;
their output is only ever stored in the `title`/`id` fields and cannot
influence the defaulting of `priority` and `max_retries`. `none` models
the "task has no id, title, or prompt" error. -/
def applyDefaults (trunc genID : String → String) (t : Task) : Option Task :=
  let t1 := if t.title = "" ∧ t.prompt ≠ "" then { t with title := trunc t.prompt } else t
  if t1.id = "" ∧ t1.title = "" then
    none
  else
    let t2 := if t1.id = "" then { t1 with id := genID t1.title } else t1
    some (defaultMaxRetries (defaultPriority t2))

/-- Claim C1 does not hold as stated: crash recovery is one of the status
mutations, it maps a `running` state to `pending` — a pair outside the
transition table — and the mutation is applied, not rejected. -/
theorem stateMachineClosure_counterexample :
    crashRecover { id := "t1", status := Status.running, attempt := 1 } ≠
      { id := "t1", status := Status.running, attempt := 1 } ∧
    (crashRecover { id := "t1", status := Status.running, attempt := 1 }).status =
      Status.pending ∧
    ValidTransition Status.running Status.pending = false := by
  decide

/-- Claim C1, amended: control-command application, the outcome switch and
the pre-run setup move only along pairs of the transition table (an
inadmissible control command leaves the state unchanged), but crash
recovery and the shutdown restore move `running → pending`, and the
working-directory validation failure moves the status straight to
`failed`, all without consulting the table, and `running → pending` and
`pending → failed` are outside it. -/
theorem stateMachine_enforcement :
    (∀ op st, applyCommand op st = st ∨
      ValidTransition st.status (applyCommand op st).status = true) ∧
    (∀ det mr b now lines st, st.status = Status.running →
      ValidTransition Status.running
        (finishExecution false det mr b now lines st).status = true) ∧
    (∀ now ph gc st, st.status = Status.pending ∨ st.status = Status.waiting →
      ValidTransition st.status (preRunStart now ph gc st).status = true) ∧
    (∀ st, st.status = Status.running → (crashRecover st).status = Status.pending) ∧
    (∀ det mr b now lines st, st.status = Status.running →
      (finishExecution true det mr b now lines st).status = Status.pending) ∧
    (∀ now st, (preRunDirFail now st).status = Status.failed) ∧
    ValidTransition Status.running Status.pending = false ∧
    ValidTransition Status.pending Status.failed = false := by
  refine ⟨?_, ?_, ?_, ?_, ?_, ?_, by decide, by decide⟩
  · intro op st
    unfold applyCommand
    split
    · split
      · split
        · rename_i h
          right
          simpa using h
        · left; rfl
      · left; rfl
    · split
      · split
        · rename_i h
          right
          simpa using h
        · left; rfl
      · left; rfl
  · intro det mr b now lines st hst
    rcases det with ⟨res, rt, rsn⟩
    cases res <;> cases rt <;>
      simp only [finishExecution, handleOutcome, Bool.false_eq_true, if_false] <;>
      first
        | (split <;> simp [ValidTransition])
        | simp [ValidTransition]
  · intro now ph gc st hst
    rcases hst with h | h <;> simp [preRunStart, h, ValidTransition]
  · intro st hst
    simp [crashRecover, hst]
  · intro det mr b now lines st hst
    simp [finishExecution, hst]
  · intro now st
    simp [preRunDirFail]

/-- Witness for the amended C1 theorem at concrete inputs. -/
theorem stateMachine_enforcement_witness :
    (crashRecover { id := "t", status := Status.running }).status = Status.pending ∧
    (preRunDirFail 0 { id := "t", status := Status.pending }).status = Status.failed ∧
    ValidTransition Status.running
      (finishExecution false { result := DetectionResult.Completed } 5 (fun _ => 0) 0 []
        { id := "t", status := Status.running }).status = true :=
  ⟨stateMachine_enforcement.2.2.2.1 _ rfl,
   stateMachine_enforcement.2.2.2.2.2.1 0 _,
   stateMachine_enforcement.2.1 _ 5 (fun _ => 0) 0 [] _ rfl⟩

/-- Claim C2: when the shutdown flag is clear, the post-detection
transition follows the outcome table of §4.8 exactly: Completed → done;
RateLimited with a reset time → waiting with resume_at at that time;
RateLimited without one → waiting with resume_at = now + backoff(attempt);
Failed below max_retries → waiting with backoff, at or above → failed;
Unknown below attempt 2 → waiting with backoff, otherwise → failed. -/
theorem outcomeTable (det : RateLimitResult) (maxRetries : Int) (backoffOf : Int → Int)
    (now : Int) (lines : List String) (st : TaskState) :
    (det.result = DetectionResult.Completed →
      (finishExecution false det maxRetries backoffOf now lines st).status = Status.done) ∧
    (∀ t, det.result = DetectionResult.RateLimited → det.resetTime = some t →
      (finishExecution false det maxRetries backoffOf now lines st).status = Status.waiting ∧
      (finishExecution false det maxRetries backoffOf now lines st).resumeAt = some t) ∧
    (det.result = DetectionResult.RateLimited → det.resetTime = none →
      (finishExecution false det maxRetries backoffOf now lines st).status = Status.waiting ∧
      (finishExecution false det maxRetries backoffOf now lines st).resumeAt =
        some (now + backoffOf st.attempt)) ∧
    (det.result = DetectionResult.Failed → st.attempt < maxRetries →
      (finishExecution false det maxRetries backoffOf now lines st).status = Status.waiting ∧
      (finishExecution false det maxRetries backoffOf now lines st).resumeAt =
        some (now + backoffOf st.attempt)) ∧
    (det.result = DetectionResult.Failed → maxRetries ≤ st.attempt →
      (finishExecution false det maxRetries backoffOf now lines st).status = Status.failed) ∧
    (det.result = DetectionResult.Unknown → st.attempt < 2 →
      (finishExecution false det maxRetries backoffOf now lines st).status = Status.waiting ∧
      (finishExecution false det maxRetries backoffOf now lines st).resumeAt =
        some (now + backoffOf st.attempt)) ∧
    (det.result = DetectionResult.Unknown → 2 ≤ st.attempt →
      (finishExecution false det maxRetries backoffOf now lines st).status = Status.failed) := by
  rcases det with ⟨res, rt, rsn⟩
  refine ⟨?_, ?_, ?_, ?_, ?_, ?_, ?_⟩
  · rintro rfl
    simp [finishExecution, handleOutcome]
  · rintro t rfl rfl
    simp [finishExecution, handleOutcome]
  · rintro rfl rfl
    simp [finishExecution, handleOutcome]
  · rintro rfl h
    simp [finishExecution, handleOutcome, h]
  · rintro rfl h
    simp [finishExecution, handleOutcome, not_lt.mpr h]
  · rintro rfl h
    simp [finishExecution, handleOutcome, h]
  · rintro rfl h
    simp [finishExecution, handleOutcome, not_lt.mpr h]

/-- Witness for the outcome-table theorem at a concrete input. -/
theorem outcomeTable_witness :
    (finishExecution false { result := DetectionResult.Failed } 5 (fun a => 10 * a) 100 []
      { id := "t", status := Status.running, attempt := 2 }).status = Status.waiting ∧
    (finishExecution false { result := DetectionResult.Failed } 5 (fun a => 10 * a) 100 []
      { id := "t", status := Status.running, attempt := 2 }).resumeAt = some 120 :=
  (outcomeTable { result := DetectionResult.Failed } 5 (fun a => 10 * a) 100 []
      { id := "t", status := Status.running, attempt := 2 }).2.2.2.1 rfl (by decide)

/-- Claim C8: a retry control command on a failed or cancelled task resets
status to pending, attempt to 0 and clears resume_at while every other
field (session_id and last_ndjson_messages in particular) is preserved;
on any other status a retry leaves the state entirely unchanged. The
direct CLI path of `runRetry` behaves identically, erroring instead of
mutating on other statuses. -/
theorem retryCommand_frame :
    (∀ st, st.status = Status.failed ∨ st.status = Status.cancelled →
      applyCommand "retry" st =
        { st with status := Status.pending, attempt := 0, resumeAt := none }) ∧
    (∀ st, st.status ≠ Status.failed → st.status ≠ Status.cancelled →
      applyCommand "retry" st = st) ∧
    (∀ st, (applyCommand "retry" st).sessionID = st.sessionID ∧
      (applyCommand "retry" st).lastNDJSONMessages = st.lastNDJSONMessages ∧
      (applyCommand "retry" st).startedAt = st.startedAt ∧
      (applyCommand "retry" st).endedAt = st.endedAt ∧
      (applyCommand "retry" st).lastRateLimitedAt = st.lastRateLimitedAt ∧
      (applyCommand "retry" st).promptHash = st.promptHash ∧
      (applyCommand "retry" st).gitCommit = st.gitCommit ∧
      (applyCommand "retry" st).id = st.id) ∧
    (∀ st, st.status = Status.failed ∨ st.status = Status.cancelled →
      runRetryDirect st =
        Except.ok { st with status := Status.pending, attempt := 0, resumeAt := none }) ∧
    (∀ st, st.status ≠ Status.failed → st.status ≠ Status.cancelled →
      runRetryDirect st = Except.error "only failed/cancelled tasks can be retried") := by
  refine ⟨?_, ?_, ?_, ?_, ?_⟩
  · intro st hst
    rcases hst with h | h <;> simp [applyCommand, h, ValidTransition]
  · intro st h1 h2
    simp [applyCommand, h1, h2]
  · intro st
    unfold applyCommand
    split
    · split
      · split <;> simp
      · simp
    · split
      · split <;> simp
      · simp
  · intro st hst
    rcases hst with h | h <;> simp [runRetryDirect, h]
  · intro st h1 h2
    simp [runRetryDirect, h1, h2]

/-- Witness for the retry frame theorem at concrete inputs. -/
theorem retryCommand_frame_witness :
    applyCommand "retry"
      { id := "t", status := Status.failed, attempt := 3, resumeAt := some 9,
        sessionID := "s", lastNDJSONMessages := ["x"] } =
      { id := "t", status := Status.pending, attempt := 0, resumeAt := none,
        sessionID := "s", lastNDJSONMessages := ["x"] } ∧
    applyCommand "retry" { id := "t", status := Status.running, attempt := 1 } =
      { id := "t", status := Status.running, attempt := 1 } :=
  ⟨retryCommand_frame.1 _ (Or.inl rfl),
   retryCommand_frame.2.1 _ (by decide) (by decide)⟩

/-- Claim C3: the detector classifies in strict layer order — exit code 0
is Completed regardless of output; otherwise a non-negative configured
rate-limit exit code that matches is RateLimited; otherwise a stderr
pattern match is RateLimited; otherwise a stdout pattern match is
RateLimited; otherwise Failed. -/
theorem detectorLayering (d : Detector) (er : String → Option Int)
    (exitCode : Int) (stdout stderr : String) :
    (exitCode = 0 →
      (Detect d er exitCode stdout stderr).result = DetectionResult.Completed) ∧
    (exitCode ≠ 0 → 0 ≤ d.rateLimitExitCode → exitCode = d.rateLimitExitCode →
      (Detect d er exitCode stdout stderr).result = DetectionResult.RateLimited) ∧
    (exitCode ≠ 0 → ¬(0 ≤ d.rateLimitExitCode ∧ exitCode = d.rateLimitExitCode) →
      (matchPatterns d.patterns stderr).isSome = true →
      (Detect d er exitCode stdout stderr).result = DetectionResult.RateLimited) ∧
    (exitCode ≠ 0 → ¬(0 ≤ d.rateLimitExitCode ∧ exitCode = d.rateLimitExitCode) →
      matchPatterns d.patterns stderr = none →
      (matchPatterns d.patterns stdout).isSome = true →
      (Detect d er exitCode stdout stderr).result = DetectionResult.RateLimited) ∧
    (exitCode ≠ 0 → ¬(0 ≤ d.rateLimitExitCode ∧ exitCode = d.rateLimitExitCode) →
      matchPatterns d.patterns stderr = none →
      matchPatterns d.patterns stdout = none →
      (Detect d er exitCode stdout stderr).result = DetectionResult.Failed) := by
  refine ⟨?_, ?_, ?_, ?_, ?_⟩
  · intro h
    simp [Detect, h]
  · intro h0 h1 h2
    subst h2
    simp [Detect, h0, h1]
  · intro h0 hc hsome
    obtain ⟨p, hp⟩ := Option.isSome_iff_exists.mp hsome
    simp [Detect, h0, hc, hp]
  · intro h0 hc hnone hsome
    obtain ⟨p, hp⟩ := Option.isSome_iff_exists.mp hsome
    simp [Detect, h0, hc, hnone, hp]
  · intro h0 hc h1 h2
    simp [Detect, h0, hc, h1, h2]

/-- Witness for the detector layering theorem with the default rate-limit
pattern set at concrete outputs. -/
theorem detectorLayering_witness :
    (Detect ⟨["rate limit"], 75⟩ (fun _ => none) 2 "" "Rate Limit reached").result =
      DetectionResult.RateLimited ∧
    (Detect ⟨["rate limit"], 75⟩ (fun _ => none) 2 "all good" "").result =
      DetectionResult.Failed ∧
    (Detect ⟨["rate limit"], 75⟩ (fun _ => none) 0 "" "Rate Limit reached").result =
      DetectionResult.Completed :=
  ⟨(detectorLayering ⟨["rate limit"], 75⟩ (fun _ => none) 2 "" "Rate Limit reached").2.2.1
      (by decide) (by decide) (by decide),
   (detectorLayering ⟨["rate limit"], 75⟩ (fun _ => none) 2 "all good" "").2.2.2.2
      (by decide) (by decide) (by decide) (by decide),
   (detectorLayering ⟨["rate limit"], 75⟩ (fun _ => none) 0 "" "Rate Limit reached").1 rfl⟩

/-- Claim C4: when the computed candidate lies in the past, a string with
an explicit month+day date errors, and a time-only string is rolled
forward 24 h, landing at or after `now` and at most 24 h (1440 min) after
it. -/
theorem parseResetTimePast (hasDate : Bool) (dateCandidate hour minute now : Nat)
    (hpast : (if hasDate = true then dateCandidate
              else (now / 1440) * 1440 + (60 * hour + minute)) < now) :
    (hasDate = true → parseResetTimeCore hasDate dateCandidate hour minute now =
      Except.error "reset time is in the past") ∧
    (hasDate = false → ∃ r, parseResetTimeCore hasDate dateCandidate hour minute now =
      Except.ok r ∧ now ≤ r ∧ r ≤ now + 1440) := by
  cases hasDate
  · simp only [Bool.false_eq_true, if_false] at hpast
    refine ⟨by simp, fun _ => ?_⟩
    refine ⟨(now / 1440) * 1440 + (60 * hour + minute) + 1440, ?_, ?_, ?_⟩
    · simp [parseResetTimeCore, hpast]
    · omega
    · omega
  · simp only [if_pos] at hpast
    refine ⟨fun _ => ?_, by simp⟩
    simp [parseResetTimeCore, hpast]

/-- Witness for the past-candidate theorem: a past dated candidate errors;
a past time-only candidate (00:05 when `now` is 560 minutes into day 1)
rolls forward within 24 h. -/
theorem parseResetTimePast_witness :
    parseResetTimeCore true 10 0 0 100 = Except.error "reset time is in the past" ∧
    (∃ r, parseResetTimeCore false 0 0 5 2000 = Except.ok r ∧ 2000 ≤ r ∧ r ≤ 2000 + 1440) :=
  ⟨(parseResetTimePast true 10 0 0 100 (by decide)).1 rfl,
   (parseResetTimePast false 0 0 5 2000 (by decide)).2 rfl⟩

/-- The cap branch of `preJitterMinutes` written as a `min`. -/
theorem preJitterMinutes_eq_min (k : Int) :
    preJitterMinutes k = min ((5 : ℚ) * 2 ^ (k - 1)) 300 := by
  unfold preJitterMinutes
  rcases le_or_lt ((5 : ℚ) * 2 ^ (k - 1)) 300 with h | h
  · rw [if_neg (not_lt.mpr h), min_eq_left h]
  · rw [if_pos h, min_eq_right h.le]

/-- Any attempt from 1 on has a pre-jitter value of at least 5 minutes. -/
theorem preJitterMinutes_ge_five (n : Int) (hn : 1 ≤ n) :
    (5 : ℚ) ≤ preJitterMinutes n := by
  have hpow1 : (1 : ℚ) ≤ (2 : ℚ) ^ (n - 1) := by
    obtain ⟨k, hk⟩ : ∃ k : ℕ, n - 1 = (k : ℤ) := ⟨(n - 1).toNat, by omega⟩
    rw [hk, zpow_natCast]
    exact one_le_pow₀ one_le_two
  rw [preJitterMinutes_eq_min]
  refine le_min (by nlinarith) (by norm_num)

/-- Claim C5: for every attempt n ≥ 1 and every jitter draw, the backoff
lies between 80 % and 120 % of the pre-jitter value
min(5·2^(n−1), 300) minutes; the base (attempt 1) is 5 minutes and the
pre-jitter value doubles per attempt up to the 300-minute cap. -/
theorem backoffBounds (n : Int) (hn : 1 ≤ n) (u : ℚ) (hu0 : 0 ≤ u) (hu1 : u ≤ 1) :
    (4/5 : ℚ) * preJitterMinutes n ≤ exponentialBackoff n u ∧
    exponentialBackoff n u ≤ (6/5 : ℚ) * preJitterMinutes n ∧
    preJitterMinutes n = min ((5 : ℚ) * 2 ^ (n - 1)) 300 ∧
    preJitterMinutes 1 = 5 ∧
    preJitterMinutes (n + 1) = min (2 * preJitterMinutes n) 300 := by
  have hm5 : (5 : ℚ) ≤ preJitterMinutes n := preJitterMinutes_ge_five n hn
  have hm0 : (0 : ℚ) ≤ preJitterMinutes n := by linarith
  have hlow : (4/5 : ℚ) * preJitterMinutes n ≤
      preJitterMinutes n + preJitterMinutes n * (1/5) * (2 * u - 1) := by
    nlinarith [mul_nonneg hm0 hu0]
  have hhigh : preJitterMinutes n + preJitterMinutes n * (1/5) * (2 * u - 1) ≤
      (6/5 : ℚ) * preJitterMinutes n := by
    nlinarith [mul_nonneg hm0 (sub_nonneg.mpr hu1)]
  have hval : exponentialBackoff n u =
      preJitterMinutes n + preJitterMinutes n * (1/5) * (2 * u - 1) := by
    unfold exponentialBackoff
    rw [if_neg (not_lt.mpr (by nlinarith))]
  refine ⟨by rw [hval]; exact hlow, by rw [hval]; exact hhigh,
    preJitterMinutes_eq_min n, by norm_num [preJitterMinutes], ?_⟩
  rw [preJitterMinutes_eq_min, preJitterMinutes_eq_min]
  have h2 : (2 : ℚ) ^ (n + 1 - 1) = 2 * 2 ^ (n - 1) := by
    rw [show n + 1 - 1 = (n - 1) + 1 by ring, zpow_add_one₀ (by norm_num : (2 : ℚ) ≠ 0)]
    ring
  rw [h2]
  rcases le_or_lt ((5 : ℚ) * 2 ^ (n - 1)) 300 with h | h
  · rw [min_eq_left h]
    congr 1
    ring
  · rw [min_eq_right h.le]
    rw [min_eq_right (by nlinarith), min_eq_right (by norm_num)]

/-- Witness for the backoff bounds theorem at attempt 3 with jitter draw
u = 1 (maximal positive jitter). -/
theorem backoffBounds_witness :
    (4/5 : ℚ) * preJitterMinutes 3 ≤ exponentialBackoff 3 1 ∧
    exponentialBackoff 3 1 ≤ (6/5 : ℚ) * preJitterMinutes 3 ∧
    preJitterMinutes 1 = 5 :=
  ⟨(backoffBounds 3 (by norm_num) 1 (by norm_num) le_rfl).1,
   (backoffBounds 3 (by norm_num) 1 (by norm_num) le_rfl).2.1,
   (backoffBounds 3 (by norm_num) 1 (by norm_num) le_rfl).2.2.2.1⟩

/-- Projections of the two defaulting steps. -/
theorem defaultPriority_priority (u : Task) :
    (defaultPriority u).priority = if u.priority = 0 then 10 else u.priority := by
  unfold defaultPriority
  split <;> simp_all

/-- `defaultPriority` leaves max_retries unchanged. -/
theorem defaultPriority_maxRetries (u : Task) :
    (defaultPriority u).maxRetries = u.maxRetries := by
  unfold defaultPriority
  split <;> rfl

/-- `defaultMaxRetries` leaves priority unchanged. -/
theorem defaultMaxRetries_priority (u : Task) :
    (defaultMaxRetries u).priority = u.priority := by
  unfold defaultMaxRetries
  split <;> rfl

/-- Projection of the max-retries defaulting step. -/
theorem defaultMaxRetries_maxRetries (u : Task) :
    (defaultMaxRetries u).maxRetries = if u.maxRetries = 0 then 5 else u.maxRetries := by
  unfold defaultMaxRetries
  split <;> simp_all

/-- The projections of the record produced by `applyDefaults`: title and id
derivation never touch priority or max_retries, which are defaulted from
zero exactly as the final two steps prescribe. -/
theorem applyDefaults_fields (trunc genID : String → String) (t t' : Task)
    (h : applyDefaults trunc genID t = some t') :
    t'.priority = (if t.priority = 0 then 10 else t.priority) ∧
    t'.maxRetries = (if t.maxRetries = 0 then 5 else t.maxRetries) := by
  unfold applyDefaults at h
  dsimp only at h
  split at h <;> split at h
  case isTrue.isTrue => exact absurd h (by simp)
  case isTrue.isFalse =>
    rw [Option.some_inj] at h
    subst h
    rw [defaultMaxRetries_priority, defaultPriority_priority,
        defaultMaxRetries_maxRetries, defaultPriority_maxRetries]
    constructor
    · simp [apply_ite Task.priority]
    · simp [apply_ite Task.maxRetries]
  case isFalse.isTrue => exact absurd h (by simp)
  case isFalse.isFalse =>
    rw [Option.some_inj] at h
    subst h
    rw [defaultMaxRetries_priority, defaultPriority_priority,
        defaultMaxRetries_maxRetries, defaultPriority_maxRetries]
    constructor
    · simp [apply_ite Task.priority]
    · simp [apply_ite Task.maxRetries]

/-- Claim C10: a task document that explicitly sets priority 0 or
max_retries 0 is given the defaults during load (priority 10, max_retries
5) because the defaulting step treats the zero value as absent, and
consequently no task returned by `applyDefaults` ever carries priority 0
or max_retries 0. -/
theorem applyDefaultsZeroValues :
    (∀ trunc genID t t', applyDefaults trunc genID t = some t' →
      t'.priority ≠ 0 ∧ t'.maxRetries ≠ 0) ∧
    (∀ trunc genID t t', t.priority = 0 → applyDefaults trunc genID t = some t' →
      t'.priority = 10) ∧
    (∀ trunc genID t t', t.maxRetries = 0 → applyDefaults trunc genID t = some t' →
      t'.maxRetries = 5) := by
  refine ⟨?_, ?_, ?_⟩
  · intro trunc genID t t' h
    obtain ⟨hp, hm⟩ := applyDefaults_fields trunc genID t t' h
    constructor
    · rw [hp]; split <;> simp_all
    · rw [hm]; split <;> simp_all
  · intro trunc genID t t' hz h
    rw [(applyDefaults_fields trunc genID t t' h).1, if_pos hz]
  · intro trunc genID t t' hz h
    rw [(applyDefaults_fields trunc genID t t' h).2, if_pos hz]

/-- Witness for the defaulting theorem on a concrete zero-valued task. -/
theorem applyDefaultsZeroValues_witness :
    applyDefaults (fun s => s) (fun s => s) { id := "a", prompt := "p" } =
      some { id := "a", title := "p", prompt := "p", priority := 10, maxRetries := 5 } ∧
    ({ id := "a", title := "p", prompt := "p", priority := 10, maxRetries := 5 } : Task).priority
      = 10 ∧
    ({ id := "a", title := "p", prompt := "p", priority := 10, maxRetries := 5 } : Task).maxRetries
      = 5 :=
  ⟨by decide,
   applyDefaultsZeroValues.2.1 (fun s => s) (fun s => s) { id := "a", prompt := "p" } _
     rfl (by decide),
   applyDefaultsZeroValues.2.2 (fun s => s) (fun s => s) { id := "a", prompt := "p" } _
     rfl (by decide)⟩

/-- A failed association-list lookup means no entry has the key. -/
theorem lookup_none_keys {seen : List (String × String)} {k : String}
    (h : seen.lookup k = none) : ∀ p ∈ seen, p.1 ≠ k := by
  induction seen with
  | nil => simp
  | cons hd tl ih =>
      intro p hp
      rw [List.lookup] at h
      rcases List.mem_cons.mp hp with rfl | hp'
      · intro hk
        rw [hk.symm] at h
        simp at h
      · split at h
        · exact absurd h (by simp)
        · exact ih h p hp'

/-- A successful association-list lookup produces a member pair. -/
theorem lookup_some_mem {seen : List (String × String)} {k v : String}
    (h : seen.lookup k = some v) : (k, v) ∈ seen := by
  induction seen with
  | nil => simp at h
  | cons hd tl ih =>
      rw [List.lookup] at h
      split at h
      · rename_i heq
        rw [Option.some_inj] at h
        have hk : k = hd.1 := by simpa using heq
        have hkv : (k, v) = hd := by rw [hk, ← h, Prod.mk.eta]
        rw [hkv]
        exact List.mem_cons_self _ _
      · exact List.mem_cons_of_mem _ (ih h)

/-- If the duplicate scan reports nothing, all task IDs are pairwise
distinct (and none collides with the seen accumulator). -/
theorem dedupCheck_none_distinct : ∀ (seen : List (String × String)) (l : List Task),
    dedupCheck seen l = none →
    (l.map Task.id).Pairwise (· ≠ ·) ∧ ∀ t ∈ l, ∀ p ∈ seen, p.1 ≠ t.id := by
  intro seen l
  induction l generalizing seen with
  | nil => simp
  | cons t rest ih =>
      intro h
      unfold dedupCheck at h
      cases hl : seen.lookup t.id with
      | some prev => rw [hl] at h; exact absurd h (by simp)
      | none =>
          rw [hl] at h
          obtain ⟨hpw, hseen⟩ := ih ((t.id, t.source) :: seen) h
          refine ⟨?_, ?_⟩
          · rw [List.map_cons, List.pairwise_cons]
            refine ⟨?_, hpw⟩
            intro a' ha'
            obtain ⟨u, hu, rfl⟩ := List.mem_map.mp ha'
            exact hseen u hu (t.id, t.source) (List.mem_cons_self _ _)
          · intro u hu p hp
            rcases List.mem_cons.mp hu with rfl | hu'
            · exact lookup_none_keys hl p hp
            · exact hseen u hu' p (List.mem_cons_of_mem _ hp)

/-- The triple reported by the duplicate scan names a task of the list
(the `b` provenance) and either an accumulator entry or another task of
the list (the `a` provenance), both holding the duplicated ID. -/
theorem dedupCheck_some_sources : ∀ (seen : List (String × String)) (l : List Task)
    (id a b : String), dedupCheck seen l = some (id, a, b) →
    (∃ t ∈ l, t.id = id ∧ t.source = b) ∧
    ((id, a) ∈ seen ∨ ∃ t ∈ l, t.id = id ∧ t.source = a) := by
  intro seen l
  induction l generalizing seen with
  | nil => intro id a b h; exact absurd h (by simp [dedupCheck])
  | cons t rest ih =>
      intro id a b h
      unfold dedupCheck at h
      cases hl : seen.lookup t.id with
      | some prev =>
          rw [hl, Option.some_inj] at h
          obtain ⟨h1, h2, h3⟩ : t.id = id ∧ prev = a ∧ t.source = b := by
            simpa [Prod.ext_iff] using h
          refine ⟨⟨t, List.mem_cons_self _ _, h1, h3⟩, Or.inl ?_⟩
          rw [← h1, ← h2]
          exact lookup_some_mem hl
      | none =>
          rw [hl] at h
          obtain ⟨⟨u, hu, hub⟩, ha⟩ := ih ((t.id, t.source) :: seen) id a b h
          refine ⟨⟨u, List.mem_cons_of_mem _ hu, hub⟩, ?_⟩
          rcases ha with hmem | ⟨v, hv, hva⟩
          · rcases List.mem_cons.mp hmem with heq | hmem'
            · obtain ⟨h1, h2⟩ : id = t.id ∧ a = t.source := by
                simpa [Prod.ext_iff] using heq
              exact Or.inr ⟨t, List.mem_cons_self _ _, h1.symm, h2.symm⟩
            · exact Or.inl hmem'
          · exact Or.inr ⟨v, List.mem_cons_of_mem _ hv, hva⟩

/-- Claim C6 does not hold verbatim: the duplicate error message carries a
trailing " Remove one." sentence beyond the text the claim states. -/
theorem loadDuplicateDetection_counterexample :
    loadTasksAndInit [{ id := "a", source := "s1" }, { id := "a", source := "s2" }] =
      Except.error "Duplicate task ID 'a' found in s1 and s2. Remove one." ∧
    loadTasksAndInit [{ id := "a", source := "s1" }, { id := "a", source := "s2" }] ≠
      Except.error "Duplicate task ID 'a' found in s1 and s2" := by
  constructor
  · rfl
  · intro h
    rw [show loadTasksAndInit [{ id := "a", source := "s1" }, { id := "a", source := "s2" }] =
      Except.error "Duplicate task ID 'a' found in s1 and s2. Remove one." from rfl] at h
    simp only [Except.error.injEq] at h
    exact absurd h (by decide)

/-- Claim C6, amended: whenever two loaded records share an ID, the load
fails with "Duplicate task ID '<id>' found in <a> and <b>. Remove one."
naming the duplicated ID and the provenance sources of two records
carrying it, and no task list is returned. -/
theorem loadDuplicateDetection (tasks : List Task)
    (hdup : ¬ (tasks.map Task.id).Pairwise (· ≠ ·)) :
    ∃ id a b, loadTasksAndInit tasks = Except.error (duplicateErrorMessage id a b) ∧
      (∃ t ∈ tasks, t.id = id ∧ t.source = a) ∧
      (∃ t ∈ tasks, t.id = id ∧ t.source = b) ∧
      ∀ res, loadTasksAndInit tasks ≠ Except.ok res := by
  cases hd : dedupCheck [] tasks with
  | none => exact absurd (dedupCheck_none_distinct [] tasks hd).1 hdup
  | some trip =>
      obtain ⟨id, a, b⟩ := trip
      obtain ⟨hb, ha⟩ := dedupCheck_some_sources [] tasks id a b hd
      rcases ha with hmem | ha
      · simp at hmem
      · exact ⟨id, a, b, by simp [loadTasksAndInit, hd], ha, hb,
          by simp [loadTasksAndInit, hd]⟩

/-- The comparator decides exactly the lexicographic strict order on the
(priority, created_at, id) key. -/
theorem taskLess_iff_lt (a b : Task) : taskLess a b = true ↔ taskKey a < taskKey b := by
  have hk : taskKey a < taskKey b ↔
      (a.priority < b.priority ∨ a.priority = b.priority ∧
        (a.createdAt < b.createdAt ∨ a.createdAt = b.createdAt ∧ a.id < b.id)) := by
    unfold taskKey
    simp [Prod.Lex.lt_iff]
  rw [hk]
  unfold taskLess
  by_cases hp : a.priority = b.priority
  · by_cases hc : a.createdAt = b.createdAt
    · simp [hp, hc]
    · simp [hp, hc]
  · simp [hp]

/-- The non-strict comparator decides the lexicographic order on the key. -/
theorem taskLE_iff_le (a b : Task) : taskLE a b ↔ taskKey a ≤ taskKey b := by
  rw [← not_lt, ← taskLess_iff_lt]
  unfold taskLE
  simp

instance : IsTotal Task taskLE :=
  ⟨fun a b => by rw [taskLE_iff_le, taskLE_iff_le]; exact le_total _ _⟩

instance : IsTrans Task taskLE :=
  ⟨fun a b c hab hbc => by
    rw [taskLE_iff_le] at hab hbc ⊢
    exact le_trans hab hbc⟩

/-- Equal sort keys force equal IDs. -/
theorem taskKey_inj_id {a b : Task} (h : taskKey a = taskKey b) : a.id = b.id := by
  unfold taskKey at h
  simp only [toLex_inj, Prod.ext_iff] at h
  exact h.2.2

/-- Any two sorted permutations of a task list with pairwise-distinct IDs
coincide: the comparator is a strict total order on distinct keys. -/
theorem sortedTasks_unique (l l₁ l₂ : List Task)
    (hids : (l.map Task.id).Pairwise (· ≠ ·))
    (h₁p : l₁.Perm l) (h₂p : l₂.Perm l)
    (h₁s : l₁.Sorted taskLE) (h₂s : l₂.Sorted taskLE) : l₁ = l₂ := by
  have hstrict : ∀ {m : List Task}, m.Perm l → m.Sorted taskLE → m.Pairwise taskLT := by
    intro m hm hs
    have hmids : m.Pairwise (fun a b => a.id ≠ b.id) := by
      have h2 : (m.map Task.id).Pairwise (· ≠ ·) :=
        ((hm.map Task.id).pairwise_iff (fun h => Ne.symm h)).mpr hids
      exact List.pairwise_map.mp h2
    have hs' : m.Pairwise taskLE := hs
    refine (hs'.and hmids).imp ?_
    rintro a b ⟨hle, hne⟩
    have hk := (taskLE_iff_le a b).mp hle
    have hkeys : taskKey a ≠ taskKey b := fun hEq => hne (taskKey_inj_id hEq)
    unfold taskLT
    rw [taskLess_iff_lt]
    exact lt_of_le_of_ne hk hkeys
  haveI : IsAntisymm Task taskLT :=
    ⟨fun a b h1 h2 => by
      unfold taskLT at h1 h2
      rw [taskLess_iff_lt] at h1 h2
      exact absurd h2 (lt_asymm h1)⟩
  exact List.eq_of_perm_of_sorted (h₁p.trans h₂p.symm) (hstrict h₁p h₁s) (hstrict h₂p h₂s)

/-- Claim C7: a successful load returns exactly the comparator-sorted
permutation of the loaded tasks; the comparator reads nothing but the
(priority, created_at, id) key; and since the comparator is a strict
total order on distinct IDs (which a successful load guarantees through
de-duplication), the resulting order is the same for every invocation. -/
theorem taskOrdering :
    (∀ l, (sortTasks l).Perm l ∧ (sortTasks l).Sorted taskLE) ∧
    (∀ a b, taskLess a b = true ↔ taskKey a < taskKey b) ∧
    (∀ l l₁ l₂ : List Task, (l.map Task.id).Pairwise (· ≠ ·) → l₁.Perm l → l₂.Perm l →
      l₁.Sorted taskLE → l₂.Sorted taskLE → l₁ = l₂) ∧
    (∀ tasks sorted, loadTasksAndInit tasks = Except.ok sorted →
      sorted = sortTasks tasks) := by
  refine ⟨fun l => ⟨List.perm_insertionSort _ l, List.sorted_insertionSort _ l⟩,
    taskLess_iff_lt, sortedTasks_unique, ?_⟩
  intro tasks sorted h
  unfold loadTasksAndInit at h
  cases hd : dedupCheck [] tasks with
  | none =>
      rw [hd] at h
      simp only [Except.ok.injEq] at h
      exact h.symm
  | some trip =>
      obtain ⟨id, a, b⟩ := trip
      rw [hd] at h
      exact absurd h (by simp)

/-- Witness for the ordering theorem: the sort of a concrete two-task list
is pinned to the priority-ascending order by determinism. -/
theorem taskOrdering_witness :
    sortTasks [{ id := "b", priority := 2 }, { id := "a", priority := 1 }] =
      [{ id := "a", priority := 1 }, { id := "b", priority := 2 }] :=
  taskOrdering.2.2.1 [{ id := "b", priority := 2 }, { id := "a", priority := 1 }]
    (sortTasks [{ id := "b", priority := 2 }, { id := "a", priority := 1 }])
    [{ id := "a", priority := 1 }, { id := "b", priority := 2 }]
    (by decide)
    (taskOrdering.1 _).1
    (by decide)
    (taskOrdering.1 _).2
    (by decide)

/-- Witness for the amended duplicate-detection theorem on a concrete
two-task list sharing the ID "a". -/
theorem loadDuplicateDetection_witness :
    ∃ id a b,
      loadTasksAndInit [{ id := "a", source := "s1" }, { id := "a", source := "s2" }] =
        Except.error (duplicateErrorMessage id a b) ∧
      (∃ t ∈ [({ id := "a", source := "s1" } : Task), { id := "a", source := "s2" }],
        t.id = id ∧ t.source = a) ∧
      (∃ t ∈ [({ id := "a", source := "s1" } : Task), { id := "a", source := "s2" }],
        t.id = id ∧ t.source = b) ∧
      ∀ res, loadTasksAndInit
        [{ id := "a", source := "s1" }, { id := "a", source := "s2" }] ≠ Except.ok res :=
  loadDuplicateDetection _ (by decide)

/-- Membership in the built argument list, characterized segment by
segment. -/
theorem mem_knownAdapterBuildArgs (x : String) (sj rf : Bool)
    (prompt model sessionID : String) (sp : Bool) (extra : List String) :
    x ∈ knownAdapterBuildArgs sj rf prompt model sessionID sp extra ↔
      x = "--print" ∨
      (sj = true ∧ (x = "--verbose" ∨ x = "--output-format" ∨ x = "stream-json")) ∨
      ((rf = true ∧ sessionID ≠ "") ∧ (x = "--resume" ∨ x = sessionID)) ∨
      (model ≠ "" ∧ (x = "--model" ∨ x = model)) ∨
      (sp = true ∧ x = "--dangerously-skip-permissions") ∨
      x ∈ extra ∨ x = "--" ∨ x = prompt := by
  by_cases hsj : sj = true
  all_goals by_cases hrf : rf = true ∧ sessionID ≠ ""
  all_goals by_cases hmm : model = ""
  all_goals by_cases hsp : sp = true
  all_goals simp [knownAdapterBuildArgs, hsj, hrf, hmm, hsp, or_assoc]

/-- Claim C9 does not hold verbatim: an extra-flag list may itself carry
"--dangerously-skip-permissions", so the output contains that token even
though skip-permissions is disabled (the `false` argument below). -/
theorem buildArgs_counterexample :
    knownAdapterBuildArgs true true "p" "" "" false ["--dangerously-skip-permissions"] =
      ["--print", "--verbose", "--output-format", "stream-json",
       "--dangerously-skip-permissions", "--", "p"] ∧
    "--dangerously-skip-permissions" ∈
      knownAdapterBuildArgs true true "p" "" "" false ["--dangerously-skip-permissions"] := by
  decide

/-- Claim C9, amended: the built argument list always begins with
"--print" and ends with the two elements "--" and the prompt; it contains
the consecutive pair "--resume <session-id>" when the adapter supports
resume and the session id is non-empty, and never contains "--resume"
otherwise provided the caller does not smuggle that token in through the
extra flags, the model or the prompt; it contains
"--dangerously-skip-permissions" when skip-permissions is enabled, and
never otherwise provided no other input equals that token; and the
safe-mode adapter builds exactly like a known adapter with both
capabilities on. -/
theorem buildArgsShape (streamJSON resumeFlag : Bool) (prompt model sessionID : String)
    (skipPerms : Bool) (extraFlags : List String) :
    (knownAdapterBuildArgs streamJSON resumeFlag prompt model sessionID skipPerms
        extraFlags).head? = some "--print" ∧
    (["--", prompt] <:+
      knownAdapterBuildArgs streamJSON resumeFlag prompt model sessionID skipPerms
        extraFlags) ∧
    (resumeFlag = true ∧ sessionID ≠ "" →
      ["--resume", sessionID] <:+:
        knownAdapterBuildArgs streamJSON resumeFlag prompt model sessionID skipPerms
          extraFlags) ∧
    (¬(resumeFlag = true ∧ sessionID ≠ "") → "--resume" ∉ extraFlags →
      model ≠ "--resume" → prompt ≠ "--resume" →
      ∀ s, ¬ (["--resume", s] <:+:
        knownAdapterBuildArgs streamJSON resumeFlag prompt model sessionID skipPerms
          extraFlags)) ∧
    (skipPerms = true → "--dangerously-skip-permissions" ∈
      knownAdapterBuildArgs streamJSON resumeFlag prompt model sessionID skipPerms
        extraFlags) ∧
    (skipPerms = false → "--dangerously-skip-permissions" ∉ extraFlags →
      model ≠ "--dangerously-skip-permissions" →
      prompt ≠ "--dangerously-skip-permissions" →
      sessionID ≠ "--dangerously-skip-permissions" →
      "--dangerously-skip-permissions" ∉
        knownAdapterBuildArgs streamJSON resumeFlag prompt model sessionID skipPerms
          extraFlags) ∧
    safeAdapterBuildArgs prompt model sessionID skipPerms extraFlags =
      knownAdapterBuildArgs true true prompt model sessionID skipPerms extraFlags := by
  refine ⟨rfl, ?_, ?_, ?_, ?_, ?_, ?_⟩
  · exact ⟨"--print" ::
      ((if streamJSON = true then ["--verbose", "--output-format", "stream-json"] else []) ++
       (if resumeFlag = true ∧ sessionID ≠ "" then ["--resume", sessionID] else []) ++
       (if model ≠ "" then ["--model", model] else []) ++
       (if skipPerms = true then ["--dangerously-skip-permissions"] else []) ++
       extraFlags),
      by simp [knownAdapterBuildArgs, List.append_assoc]⟩
  · intro hres
    exact ⟨"--print" ::
      (if streamJSON = true then ["--verbose", "--output-format", "stream-json"] else []),
      (if model ≠ "" then ["--model", model] else []) ++
      (if skipPerms = true then ["--dangerously-skip-permissions"] else []) ++
      extraFlags ++ ["--", prompt],
      by simp [knownAdapterBuildArgs, hres.1, hres.2, List.append_assoc]⟩
  · intro hniff hnot hm hp s hinf
    have hx : "--resume" ∈
        knownAdapterBuildArgs streamJSON resumeFlag prompt model sessionID skipPerms
          extraFlags := hinf.subset (List.mem_cons_self _ _)
    rw [mem_knownAdapterBuildArgs] at hx
    rcases hx with h | ⟨_, h⟩ | ⟨hc, _⟩ | ⟨_, h⟩ | ⟨_, h⟩ | h | h | h
    · exact absurd h (by decide)
    · rcases h with h | h | h <;> exact absurd h (by decide)
    · exact hniff hc
    · rcases h with h | h
      · exact absurd h (by decide)
      · exact hm h.symm
    · exact absurd h (by decide)
    · exact hnot h
    · exact absurd h (by decide)
    · exact hp h.symm
  · intro hsp
    rw [mem_knownAdapterBuildArgs]
    exact Or.inr (Or.inr (Or.inr (Or.inr (Or.inl ⟨hsp, rfl⟩))))
  · intro hsp hnot hm hp hs hmem
    rw [mem_knownAdapterBuildArgs] at hmem
    rcases hmem with h | ⟨_, h⟩ | ⟨_, h⟩ | ⟨_, h⟩ | ⟨hspt, _⟩ | h | h | h
    · exact absurd h (by decide)
    · rcases h with h | h | h <;> exact absurd h (by decide)
    · rcases h with h | h
      · exact absurd h (by decide)
      · exact hs h.symm
    · rcases h with h | h
      · exact absurd h (by decide)
      · exact hm h.symm
    · rw [hsp] at hspt
      cases hspt
    · exact hnot h
    · exact absurd h (by decide)
    · exact hp h.symm
  · simp [safeAdapterBuildArgs, knownAdapterBuildArgs]

/-- Witness for the amended argument-builder theorem at concrete inputs. -/
theorem buildArgsShape_witness :
    ["--resume", "S"] <:+: knownAdapterBuildArgs true true "p" "m" "S" false [] ∧
    "--dangerously-skip-permissions" ∉
      knownAdapterBuildArgs true true "p" "m" "S" false [] ∧
    (knownAdapterBuildArgs true true "p" "m" "S" false []).head? = some "--print" ∧
    ["--", "p"] <:+ knownAdapterBuildArgs true true "p" "m" "S" false [] :=
  ⟨(buildArgsShape true true "p" "m" "S" false []).2.2.1 ⟨rfl, by decide⟩,
   (buildArgsShape true true "p" "m" "S" false []).2.2.2.2.2.1 rfl
     (by decide) (by decide) (by decide) (by decide),
   (buildArgsShape true true "p" "m" "S" false []).1,
   (buildArgsShape true true "p" "m" "S" false []).2.1⟩

end Autopilot
